import Mathlib

/-!
Verification development for `src/tbp/monty/frameworks/actions/actions.py`:
the action variant model, the snake-case name deriver, and the JSON
encode/decode pair (`ActionJSONEncoder.default`, `ActionJSONDecoder.object_hook`).

Modelling conventions:
* JSON values are `JValue` (strings, numbers, arrays); JSON numbers (Python
  floats) are modelled as rationals, which is exact for the pass-through
  behaviour of this codec (no arithmetic is ever performed on them).
* A decoded JSON object is an ordered association list (`WireObj`); Python
  dicts preserve insertion order and hold distinct keys, and key lookup is
  modelled by first match.
* Python exceptions are modelled by `Except DecodeError`: `ValueError` and
  `KeyError` (raised by a failed `obj[key]` subscript) keep their payloads;
  `TypeError` models `tuple(v)` applied to a non-sequence `v`.  (In Python a
  string is also iterable, so `tuple` of a string would succeed; the wire
  format's sequence-typed values are JSON arrays, and only arrays are treated
  as sequences here.)
-/

namespace Monty

/-- A JSON-like value appearing in a wire object. -/
inductive JValue where
  | str (s : String)
  | num (q : ℚ)
  | arr (xs : List JValue)

mutual

/-- Decidable equality for `JValue` (written by hand: the value type nests
`List JValue`, so the derive handler does not apply). -/
def jvalueDecEq : (a b : JValue) → Decidable (a = b)
  | .str a, .str b =>
      match decEq a b with
      | isTrue h => isTrue (congrArg JValue.str h)
      | isFalse h => isFalse fun hh => h (JValue.str.inj hh)
  | .str _, .num _ => isFalse fun h => JValue.noConfusion h
  | .str _, .arr _ => isFalse fun h => JValue.noConfusion h
  | .num _, .str _ => isFalse fun h => JValue.noConfusion h
  | .num a, .num b =>
      match decEq a b with
      | isTrue h => isTrue (congrArg JValue.num h)
      | isFalse h => isFalse fun hh => h (JValue.num.inj hh)
  | .num _, .arr _ => isFalse fun h => JValue.noConfusion h
  | .arr _, .str _ => isFalse fun h => JValue.noConfusion h
  | .arr _, .num _ => isFalse fun h => JValue.noConfusion h
  | .arr a, .arr b =>
      match jvalueListDecEq a b with
      | isTrue h => isTrue (congrArg JValue.arr h)
      | isFalse h => isFalse fun hh => h (JValue.arr.inj hh)

/-- Decidable equality for lists of `JValue`, mutually with `jvalueDecEq`. -/
def jvalueListDecEq : (a b : List JValue) → Decidable (a = b)
  | [], [] => isTrue rfl
  | [], _ :: _ => isFalse fun h => List.noConfusion h
  | _ :: _, [] => isFalse fun h => List.noConfusion h
  | x :: xs, y :: ys =>
      match jvalueDecEq x y, jvalueListDecEq xs ys with
      | isTrue h1, isTrue h2 => isTrue (by rw [h1, h2])
      | isFalse h1, _ => isFalse fun h => h1 (List.cons.inj h).1
      | _, isFalse h2 => isFalse fun h => h2 (List.cons.inj h).2

end

instance : DecidableEq JValue := jvalueDecEq

/-- A decoded JSON object: ordered key-value pairs with distinct keys. -/
abbrev WireObj := List (String × JValue)

/-- Key lookup in a wire object (Python `obj[key]` / `key in obj`), first match. -/
def lookupKey : WireObj → String → Option JValue
  | [], _ => none
  | (k, v) :: rest, key => if k = key then some v else lookupKey rest key

/-- One step of the comprehension inside `_camel_case_to_snake_case`:
an uppercase letter becomes an underscore plus its lowercase form. -/
def expandChar (c : Char) : List Char :=
  if c.isUpper then ['_', c.toLower] else [c]

/-- The joined comprehension of `_camel_case_to_snake_case` over the name. -/
def expandChars : List Char → List Char
  | [] => []
  | c :: cs => expandChar c ++ expandChars cs

/-- Models `.lstrip("_")`: remove every leading underscore. -/
def lstripUnderscores : List Char → List Char
  | '_' :: cs => lstripUnderscores cs
  | cs => cs

/-- Models `Action._camel_case_to_snake_case`: prepend an underscore to every
uppercase letter, lowercase every letter, then strip leading underscores. -/
def camel_case_to_snake_case (name : String) : String :=
  String.mk (lstripUnderscores (expandChars name.toList))

/-- Models `Action.action_name`, applied to the class identifier (`cls.__name__`). -/
def action_name (classIdent : String) : String :=
  camel_case_to_snake_case classIdent

/-- The 14 concrete `Action` subclasses, one constructor per class.  Field
order matches each `__init__` parameter list.  Attribute values are stored
unchecked (as in Python), hence `JValue`-typed scalar fields; the
`VectorXYZ`/`QuaternionWXYZ` fields are the tuples produced by `tuple(...)`
in the decoder, modelled as lists of values (their length is not enforced
anywhere in the source). -/
inductive Action where
  | lookDown (agent_id rotation_degrees constraint_degrees : JValue)
  | lookUp (agent_id rotation_degrees constraint_degrees : JValue)
  | moveForward (agent_id distance : JValue)
  | moveTangentially (agent_id distance : JValue) (direction : List JValue)
  | orientHorizontal (agent_id rotation_degrees left_distance forward_distance : JValue)
  | orientVertical (agent_id rotation_degrees down_distance forward_distance : JValue)
  | setAgentPitch (agent_id pitch_degrees : JValue)
  | setAgentPose (agent_id : JValue) (location rotation_quat : List JValue)
  | setSensorPitch (agent_id pitch_degrees : JValue)
  | setSensorPose (agent_id : JValue) (location rotation_quat : List JValue)
  | setSensorRotation (agent_id : JValue) (rotation_quat : List JValue)
  | setYaw (agent_id rotation_degrees : JValue)
  | turnLeft (agent_id rotation_degrees : JValue)
  | turnRight (agent_id rotation_degrees : JValue)
  deriving DecidableEq

/-- The Python class identifier (`type(a).__name__`) of a variant instance. -/
def className : Action → String
  | .lookDown .. => "LookDown"
  | .lookUp .. => "LookUp"
  | .moveForward .. => "MoveForward"
  | .moveTangentially .. => "MoveTangentially"
  | .orientHorizontal .. => "OrientHorizontal"
  | .orientVertical .. => "OrientVertical"
  | .setAgentPitch .. => "SetAgentPitch"
  | .setAgentPose .. => "SetAgentPose"
  | .setSensorPitch .. => "SetSensorPitch"
  | .setSensorPose .. => "SetSensorPose"
  | .setSensorRotation .. => "SetSensorRotation"
  | .setYaw .. => "SetYaw"
  | .turnLeft .. => "TurnLeft"
  | .turnRight .. => "TurnRight"

/-- Models the `Action.name` property: `cls.action_name()` on the instance's class. -/
def actionName (a : Action) : String :=
  action_name (className a)

/-- The class identifiers of all concrete `Action` subclasses, in definition
order (which is also the decoder's dispatch order). -/
def actionClassNames : List String :=
  ["LookDown", "LookUp", "MoveForward", "MoveTangentially", "OrientHorizontal",
   "OrientVertical", "SetAgentPitch", "SetAgentPose", "SetSensorPitch",
   "SetSensorPose", "SetSensorRotation", "SetYaw", "TurnLeft", "TurnRight"]

/-- The derived wire discriminator tokens of all concrete `Action` subclasses. -/
def knownActionNames : List String :=
  actionClassNames.map action_name

/-- Models `LookDown.__init__` when `constraint_degrees` is omitted: the
parameter default `90.0` is applied. -/
def mkLookDown (agent_id rotation_degrees : JValue) : Action :=
  .lookDown agent_id rotation_degrees (.num 90)

/-- Models `LookUp.__init__` when `constraint_degrees` is omitted: the
parameter default `90.0` is applied. -/
def mkLookUp (agent_id rotation_degrees : JValue) : Action :=
  .lookUp agent_id rotation_degrees (.num 90)

/-- Models `ActionJSONEncoder.default` applied to an `Action`: the pairs of
`dict(action)` built from `Action.__iter__`, which yields `("action", name)`
first and then `self.__dict__` in attribute-assignment order (the `"name"`
key never occurs in `__dict__`, so the skip in `__iter__` never fires).
Tuple-valued fields are rendered by the JSON serializer as arrays.  Note the
assignment order in `LookDown.__init__`/`LookUp.__init__` is `agent_id`,
`constraint_degrees`, `rotation_degrees`. -/
def encodeAction : Action → WireObj
  | .lookDown agent_id rotation_degrees constraint_degrees =>
      [("action", .str (action_name "LookDown")), ("agent_id", agent_id),
       ("constraint_degrees", constraint_degrees),
       ("rotation_degrees", rotation_degrees)]
  | .lookUp agent_id rotation_degrees constraint_degrees =>
      [("action", .str (action_name "LookUp")), ("agent_id", agent_id),
       ("constraint_degrees", constraint_degrees),
       ("rotation_degrees", rotation_degrees)]
  | .moveForward agent_id distance =>
      [("action", .str (action_name "MoveForward")), ("agent_id", agent_id),
       ("distance", distance)]
  | .moveTangentially agent_id distance direction =>
      [("action", .str (action_name "MoveTangentially")), ("agent_id", agent_id),
       ("distance", distance), ("direction", .arr direction)]
  | .orientHorizontal agent_id rotation_degrees left_distance forward_distance =>
      [("action", .str (action_name "OrientHorizontal")), ("agent_id", agent_id),
       ("rotation_degrees", rotation_degrees),
       ("left_distance", left_distance),
       ("forward_distance", forward_distance)]
  | .orientVertical agent_id rotation_degrees down_distance forward_distance =>
      [("action", .str (action_name "OrientVertical")), ("agent_id", agent_id),
       ("rotation_degrees", rotation_degrees),
       ("down_distance", down_distance),
       ("forward_distance", forward_distance)]
  | .setAgentPitch agent_id pitch_degrees =>
      [("action", .str (action_name "SetAgentPitch")), ("agent_id", agent_id),
       ("pitch_degrees", pitch_degrees)]
  | .setAgentPose agent_id location rotation_quat =>
      [("action", .str (action_name "SetAgentPose")), ("agent_id", agent_id),
       ("location", .arr location), ("rotation_quat", .arr rotation_quat)]
  | .setSensorPitch agent_id pitch_degrees =>
      [("action", .str (action_name "SetSensorPitch")), ("agent_id", agent_id),
       ("pitch_degrees", pitch_degrees)]
  | .setSensorPose agent_id location rotation_quat =>
      [("action", .str (action_name "SetSensorPose")), ("agent_id", agent_id),
       ("location", .arr location), ("rotation_quat", .arr rotation_quat)]
  | .setSensorRotation agent_id rotation_quat =>
      [("action", .str (action_name "SetSensorRotation")), ("agent_id", agent_id),
       ("rotation_quat", .arr rotation_quat)]
  | .setYaw agent_id rotation_degrees =>
      [("action", .str (action_name "SetYaw")), ("agent_id", agent_id),
       ("rotation_degrees", rotation_degrees)]
  | .turnLeft agent_id rotation_degrees =>
      [("action", .str (action_name "TurnLeft")), ("agent_id", agent_id),
       ("rotation_degrees", rotation_degrees)]
  | .turnRight agent_id rotation_degrees =>
      [("action", .str (action_name "TurnRight")), ("agent_id", agent_id),
       ("rotation_degrees", rotation_degrees)]

/-- The Python exceptions that `ActionJSONDecoder.object_hook` can raise. -/
inductive DecodeError where
  | valueError (msg : String)
  | keyError (key : String)
  | typeError (value : JValue)
  deriving DecidableEq

/-- Models the subscript `obj[key]`: the value, or a `KeyError` naming the key. -/
def getField (obj : WireObj) (key : String) : Except DecodeError JValue :=
  match lookupKey obj key with
  | some v => .ok v
  | none => .error (.keyError key)

/-- Models `tuple(obj[key])`: a `KeyError` if the key is absent, the element
list if the value is an array, and a `TypeError` otherwise. -/
def getTuple (obj : WireObj) (key : String) : Except DecodeError (List JValue) :=
  match getField obj key with
  | .error e => .error e
  | .ok (.arr xs) => .ok xs
  | .ok v => .error (.typeError v)

mutual

/-- Python `str()` of a value, used in the unknown-action message.  Exact for
strings (the only case the decoder's message is exercised with on string
discriminators); approximate formatting for numbers and arrays. -/
def pyStr : JValue → String
  | .str s => s
  | .num q => toString q
  | .arr xs => "[" ++ pyStrElems xs ++ "]"

/-- Comma-separated rendering of array elements for `pyStr`. -/
def pyStrElems : List JValue → String
  | [] => ""
  | [x] => pyStr x
  | x :: rest => pyStr x ++ ", " ++ pyStrElems rest

end

/-- The `LookDown` arm of `object_hook`: keyword arguments evaluated in
source order `agent_id`, `rotation_degrees`, `constraint_degrees`. -/
def branchLookDown (obj : WireObj) : Except DecodeError Action :=
  match getField obj "agent_id" with
  | .error e => .error e
  | .ok agent_id =>
    match getField obj "rotation_degrees" with
    | .error e => .error e
    | .ok rotation_degrees =>
      match getField obj "constraint_degrees" with
      | .error e => .error e
      | .ok constraint_degrees =>
        .ok (.lookDown agent_id rotation_degrees constraint_degrees)

/-- The `LookUp` arm of `object_hook`. -/
def branchLookUp (obj : WireObj) : Except DecodeError Action :=
  match getField obj "agent_id" with
  | .error e => .error e
  | .ok agent_id =>
    match getField obj "rotation_degrees" with
    | .error e => .error e
    | .ok rotation_degrees =>
      match getField obj "constraint_degrees" with
      | .error e => .error e
      | .ok constraint_degrees =>
        .ok (.lookUp agent_id rotation_degrees constraint_degrees)

/-- The `MoveForward` arm of `object_hook`. -/
def branchMoveForward (obj : WireObj) : Except DecodeError Action :=
  match getField obj "agent_id" with
  | .error e => .error e
  | .ok agent_id =>
    match getField obj "distance" with
    | .error e => .error e
    | .ok distance => .ok (.moveForward agent_id distance)

/-- The `MoveTangentially` arm of `object_hook`; `direction` goes through
`tuple(...)`. -/
def branchMoveTangentially (obj : WireObj) : Except DecodeError Action :=
  match getField obj "agent_id" with
  | .error e => .error e
  | .ok agent_id =>
    match getField obj "distance" with
    | .error e => .error e
    | .ok distance =>
      match getTuple obj "direction" with
      | .error e => .error e
      | .ok direction => .ok (.moveTangentially agent_id distance direction)

/-- The `OrientHorizontal` arm of `object_hook`. -/
def branchOrientHorizontal (obj : WireObj) : Except DecodeError Action :=
  match getField obj "agent_id" with
  | .error e => .error e
  | .ok agent_id =>
    match getField obj "rotation_degrees" with
    | .error e => .error e
    | .ok rotation_degrees =>
      match getField obj "left_distance" with
      | .error e => .error e
      | .ok left_distance =>
        match getField obj "forward_distance" with
        | .error e => .error e
        | .ok forward_distance =>
          .ok (.orientHorizontal agent_id rotation_degrees left_distance
            forward_distance)

/-- The `OrientVertical` arm of `object_hook`. -/
def branchOrientVertical (obj : WireObj) : Except DecodeError Action :=
  match getField obj "agent_id" with
  | .error e => .error e
  | .ok agent_id =>
    match getField obj "rotation_degrees" with
    | .error e => .error e
    | .ok rotation_degrees =>
      match getField obj "down_distance" with
      | .error e => .error e
      | .ok down_distance =>
        match getField obj "forward_distance" with
        | .error e => .error e
        | .ok forward_distance =>
          .ok (.orientVertical agent_id rotation_degrees down_distance
            forward_distance)

/-- The `SetAgentPitch` arm of `object_hook`. -/
def branchSetAgentPitch (obj : WireObj) : Except DecodeError Action :=
  match getField obj "agent_id" with
  | .error e => .error e
  | .ok agent_id =>
    match getField obj "pitch_degrees" with
    | .error e => .error e
    | .ok pitch_degrees => .ok (.setAgentPitch agent_id pitch_degrees)

/-- The `SetAgentPose` arm of `object_hook`; `location` and `rotation_quat`
go through `tuple(...)`. -/
def branchSetAgentPose (obj : WireObj) : Except DecodeError Action :=
  match getField obj "agent_id" with
  | .error e => .error e
  | .ok agent_id =>
    match getTuple obj "location" with
    | .error e => .error e
    | .ok location =>
      match getTuple obj "rotation_quat" with
      | .error e => .error e
      | .ok rotation_quat => .ok (.setAgentPose agent_id location rotation_quat)

/-- The `SetSensorPitch` arm of `object_hook`. -/
def branchSetSensorPitch (obj : WireObj) : Except DecodeError Action :=
  match getField obj "agent_id" with
  | .error e => .error e
  | .ok agent_id =>
    match getField obj "pitch_degrees" with
    | .error e => .error e
    | .ok pitch_degrees => .ok (.setSensorPitch agent_id pitch_degrees)

/-- The `SetSensorPose` arm of `object_hook`. -/
def branchSetSensorPose (obj : WireObj) : Except DecodeError Action :=
  match getField obj "agent_id" with
  | .error e => .error e
  | .ok agent_id =>
    match getTuple obj "location" with
    | .error e => .error e
    | .ok location =>
      match getTuple obj "rotation_quat" with
      | .error e => .error e
      | .ok rotation_quat => .ok (.setSensorPose agent_id location rotation_quat)

/-- The `SetSensorRotation` arm of `object_hook`. -/
def branchSetSensorRotation (obj : WireObj) : Except DecodeError Action :=
  match getField obj "agent_id" with
  | .error e => .error e
  | .ok agent_id =>
    match getTuple obj "rotation_quat" with
    | .error e => .error e
    | .ok rotation_quat => .ok (.setSensorRotation agent_id rotation_quat)

/-- The `SetYaw` arm of `object_hook`. -/
def branchSetYaw (obj : WireObj) : Except DecodeError Action :=
  match getField obj "agent_id" with
  | .error e => .error e
  | .ok agent_id =>
    match getField obj "rotation_degrees" with
    | .error e => .error e
    | .ok rotation_degrees => .ok (.setYaw agent_id rotation_degrees)

/-- The `TurnLeft` arm of `object_hook`. -/
def branchTurnLeft (obj : WireObj) : Except DecodeError Action :=
  match getField obj "agent_id" with
  | .error e => .error e
  | .ok agent_id =>
    match getField obj "rotation_degrees" with
    | .error e => .error e
    | .ok rotation_degrees => .ok (.turnLeft agent_id rotation_degrees)

/-- The `TurnRight` arm of `object_hook`. -/
def branchTurnRight (obj : WireObj) : Except DecodeError Action :=
  match getField obj "agent_id" with
  | .error e => .error e
  | .ok agent_id =>
    match getField obj "rotation_degrees" with
    | .error e => .error e
    | .ok rotation_degrees => .ok (.turnRight agent_id rotation_degrees)

/-- The `if action == ... .action_name()` dispatch chain of
`ActionJSONDecoder.object_hook`, in source order, ending in the
unknown-action `ValueError`. -/
def dispatchAction (action : JValue) (obj : WireObj) : Except DecodeError Action :=
  if action = .str (action_name "LookDown") then branchLookDown obj
  else if action = .str (action_name "LookUp") then branchLookUp obj
  else if action = .str (action_name "MoveForward") then branchMoveForward obj
  else if action = .str (action_name "MoveTangentially") then
    branchMoveTangentially obj
  else if action = .str (action_name "OrientHorizontal") then
    branchOrientHorizontal obj
  else if action = .str (action_name "OrientVertical") then
    branchOrientVertical obj
  else if action = .str (action_name "SetAgentPitch") then branchSetAgentPitch obj
  else if action = .str (action_name "SetAgentPose") then branchSetAgentPose obj
  else if action = .str (action_name "SetSensorPitch") then
    branchSetSensorPitch obj
  else if action = .str (action_name "SetSensorPose") then branchSetSensorPose obj
  else if action = .str (action_name "SetSensorRotation") then
    branchSetSensorRotation obj
  else if action = .str (action_name "SetYaw") then branchSetYaw obj
  else if action = .str (action_name "TurnLeft") then branchTurnLeft obj
  else if action = .str (action_name "TurnRight") then branchTurnRight obj
  else .error (.valueError
    ("Invalid action object: unknown action '" ++ pyStr action ++ "'."))

/-- Models `ActionJSONDecoder.object_hook`: require the `"action"` key, then
dispatch on its value. -/
def object_hook (obj : WireObj) : Except DecodeError Action :=
  match lookupKey obj "action" with
  | none => .error (.valueError "Invalid action object: missing 'action' key.")
  | some action => dispatchAction action obj

/-- The required field keys extracted by the decoder for each known
discriminator, in the order the keyword arguments are evaluated. -/
def requiredKeys : String → List String
  | "look_down" => ["agent_id", "rotation_degrees", "constraint_degrees"]
  | "look_up" => ["agent_id", "rotation_degrees", "constraint_degrees"]
  | "move_forward" => ["agent_id", "distance"]
  | "move_tangentially" => ["agent_id", "distance", "direction"]
  | "orient_horizontal" =>
      ["agent_id", "rotation_degrees", "left_distance", "forward_distance"]
  | "orient_vertical" =>
      ["agent_id", "rotation_degrees", "down_distance", "forward_distance"]
  | "set_agent_pitch" => ["agent_id", "pitch_degrees"]
  | "set_agent_pose" => ["agent_id", "location", "rotation_quat"]
  | "set_sensor_pitch" => ["agent_id", "pitch_degrees"]
  | "set_sensor_pose" => ["agent_id", "location", "rotation_quat"]
  | "set_sensor_rotation" => ["agent_id", "rotation_quat"]
  | "set_yaw" => ["agent_id", "rotation_degrees"]
  | "turn_left" => ["agent_id", "rotation_degrees"]
  | "turn_right" => ["agent_id", "rotation_degrees"]
  | _ => []

/-- The field keys whose values the decoder passes through `tuple(...)`
(declared `VectorXYZ` or `QuaternionWXYZ`), per known discriminator. -/
def seqFieldKeys : String → List String
  | "move_tangentially" => ["direction"]
  | "set_agent_pose" => ["location", "rotation_quat"]
  | "set_sensor_pose" => ["location", "rotation_quat"]
  | "set_sensor_rotation" => ["rotation_quat"]
  | _ => []

/-- Spec-side table for the amended key-order claim: the wire keys following
`"action"` and `"agent_id"` for each variant class.  For `LookDown`/`LookUp`
the order is the attribute-assignment order (`constraint_degrees` before
`rotation_degrees`); every other variant matches the declaration order of
the section-3 table. -/
def specFieldOrder : String → List String
  | "LookDown" => ["constraint_degrees", "rotation_degrees"]
  | "LookUp" => ["constraint_degrees", "rotation_degrees"]
  | "MoveForward" => ["distance"]
  | "MoveTangentially" => ["distance", "direction"]
  | "OrientHorizontal" => ["rotation_degrees", "left_distance", "forward_distance"]
  | "OrientVertical" => ["rotation_degrees", "down_distance", "forward_distance"]
  | "SetAgentPitch" => ["pitch_degrees"]
  | "SetAgentPose" => ["location", "rotation_quat"]
  | "SetSensorPitch" => ["pitch_degrees"]
  | "SetSensorPose" => ["location", "rotation_quat"]
  | "SetSensorRotation" => ["rotation_quat"]
  | "SetYaw" => ["rotation_degrees"]
  | "TurnLeft" => ["rotation_degrees"]
  | "TurnRight" => ["rotation_degrees"]
  | _ => []


/-! ### Helper lemmas -/

/-- The derived discriminator tokens, evaluated. -/
theorem knownActionNames_eq : knownActionNames =
    ["look_down", "look_up", "move_forward", "move_tangentially",
     "orient_horizontal", "orient_vertical", "set_agent_pitch",
     "set_agent_pose", "set_sensor_pitch", "set_sensor_pose",
     "set_sensor_rotation", "set_yaw", "turn_left", "turn_right"] := rfl

/-- A key found in a wire object is still found, with the same value, after
appending further pairs. -/
theorem lookupKey_append_some (extra : WireObj) {obj : WireObj} {k : String}
    {v : JValue} (h : lookupKey obj k = some v) :
    lookupKey (obj ++ extra) k = some v := by
  induction obj with
  | nil => simp [lookupKey] at h
  | cons p rest ih =>
    rcases p with ⟨k0, v0⟩
    rw [List.cons_append]
    unfold lookupKey at h ⊢
    split_ifs at h ⊢
    · exact h
    · exact ih h

/-- `object_hook` reduces to the dispatch chain once the `"action"` key is found. -/
theorem object_hook_eq_dispatch {obj : WireObj} {v : JValue}
    (h : lookupKey obj "action" = some v) :
    object_hook obj = dispatchAction v obj := by
  unfold object_hook
  rw [h]

/-- `object_hook` raises the malformed-input `ValueError` when the `"action"`
key is absent. -/
theorem object_hook_action_none {obj : WireObj}
    (h : lookupKey obj "action" = none) :
    object_hook obj =
      .error (.valueError "Invalid action object: missing 'action' key.") := by
  unfold object_hook
  rw [h]

theorem dispatch_look_down (obj : WireObj) :
    dispatchAction (.str "look_down") obj = branchLookDown obj := rfl

theorem dispatch_look_up (obj : WireObj) :
    dispatchAction (.str "look_up") obj = branchLookUp obj := rfl

theorem dispatch_move_forward (obj : WireObj) :
    dispatchAction (.str "move_forward") obj = branchMoveForward obj := rfl

theorem dispatch_move_tangentially (obj : WireObj) :
    dispatchAction (.str "move_tangentially") obj =
      branchMoveTangentially obj := rfl

theorem dispatch_orient_horizontal (obj : WireObj) :
    dispatchAction (.str "orient_horizontal") obj =
      branchOrientHorizontal obj := rfl

theorem dispatch_orient_vertical (obj : WireObj) :
    dispatchAction (.str "orient_vertical") obj = branchOrientVertical obj := rfl

theorem dispatch_set_agent_pitch (obj : WireObj) :
    dispatchAction (.str "set_agent_pitch") obj = branchSetAgentPitch obj := rfl

theorem dispatch_set_agent_pose (obj : WireObj) :
    dispatchAction (.str "set_agent_pose") obj = branchSetAgentPose obj := rfl

theorem dispatch_set_sensor_pitch (obj : WireObj) :
    dispatchAction (.str "set_sensor_pitch") obj = branchSetSensorPitch obj := rfl

theorem dispatch_set_sensor_pose (obj : WireObj) :
    dispatchAction (.str "set_sensor_pose") obj = branchSetSensorPose obj := rfl

theorem dispatch_set_sensor_rotation (obj : WireObj) :
    dispatchAction (.str "set_sensor_rotation") obj =
      branchSetSensorRotation obj := rfl

theorem dispatch_set_yaw (obj : WireObj) :
    dispatchAction (.str "set_yaw") obj = branchSetYaw obj := rfl

theorem dispatch_turn_left (obj : WireObj) :
    dispatchAction (.str "turn_left") obj = branchTurnLeft obj := rfl

theorem dispatch_turn_right (obj : WireObj) :
    dispatchAction (.str "turn_right") obj = branchTurnRight obj := rfl

theorem an_LookDown : action_name "LookDown" = "look_down" := rfl

theorem an_LookUp : action_name "LookUp" = "look_up" := rfl

theorem an_MoveForward : action_name "MoveForward" = "move_forward" := rfl

theorem an_MoveTangentially :
    action_name "MoveTangentially" = "move_tangentially" := rfl

theorem an_OrientHorizontal :
    action_name "OrientHorizontal" = "orient_horizontal" := rfl

theorem an_OrientVertical : action_name "OrientVertical" = "orient_vertical" := rfl

theorem an_SetAgentPitch : action_name "SetAgentPitch" = "set_agent_pitch" := rfl

theorem an_SetAgentPose : action_name "SetAgentPose" = "set_agent_pose" := rfl

theorem an_SetSensorPitch :
    action_name "SetSensorPitch" = "set_sensor_pitch" := rfl

theorem an_SetSensorPose : action_name "SetSensorPose" = "set_sensor_pose" := rfl

theorem an_SetSensorRotation :
    action_name "SetSensorRotation" = "set_sensor_rotation" := rfl

theorem an_SetYaw : action_name "SetYaw" = "set_yaw" := rfl

theorem an_TurnLeft : action_name "TurnLeft" = "turn_left" := rfl

theorem an_TurnRight : action_name "TurnRight" = "turn_right" := rfl

/-- Appending fresh pairs preserves a successful `branchLookDown` decode. -/
theorem branchLookDown_append {obj : WireObj} (extra : WireObj) {a : Action}
    (h : branchLookDown obj = .ok a) :
    branchLookDown (obj ++ extra) = .ok a := by
  unfold branchLookDown getField at h ⊢
  rcases h1 : lookupKey obj "agent_id" with _ | v1
  · simp only [h1] at h
    exact Except.noConfusion h
  · simp only [h1] at h
    simp only [lookupKey_append_some extra h1]
    rcases h2 : lookupKey obj "rotation_degrees" with _ | v2
    · simp only [h2] at h
      exact Except.noConfusion h
    · simp only [h2] at h
      simp only [lookupKey_append_some extra h2]
      rcases h3 : lookupKey obj "constraint_degrees" with _ | v3
      · simp only [h3] at h
        exact Except.noConfusion h
      · simp only [h3] at h
        simp only [lookupKey_append_some extra h3]
        exact h

/-- Appending fresh pairs preserves a successful `branchLookUp` decode. -/
theorem branchLookUp_append {obj : WireObj} (extra : WireObj) {a : Action}
    (h : branchLookUp obj = .ok a) :
    branchLookUp (obj ++ extra) = .ok a := by
  unfold branchLookUp getField at h ⊢
  rcases h1 : lookupKey obj "agent_id" with _ | v1
  · simp only [h1] at h
    exact Except.noConfusion h
  · simp only [h1] at h
    simp only [lookupKey_append_some extra h1]
    rcases h2 : lookupKey obj "rotation_degrees" with _ | v2
    · simp only [h2] at h
      exact Except.noConfusion h
    · simp only [h2] at h
      simp only [lookupKey_append_some extra h2]
      rcases h3 : lookupKey obj "constraint_degrees" with _ | v3
      · simp only [h3] at h
        exact Except.noConfusion h
      · simp only [h3] at h
        simp only [lookupKey_append_some extra h3]
        exact h

/-- Appending fresh pairs preserves a successful `branchMoveForward` decode. -/
theorem branchMoveForward_append {obj : WireObj} (extra : WireObj) {a : Action}
    (h : branchMoveForward obj = .ok a) :
    branchMoveForward (obj ++ extra) = .ok a := by
  unfold branchMoveForward getField at h ⊢
  rcases h1 : lookupKey obj "agent_id" with _ | v1
  · simp only [h1] at h
    exact Except.noConfusion h
  · simp only [h1] at h
    simp only [lookupKey_append_some extra h1]
    rcases h2 : lookupKey obj "distance" with _ | v2
    · simp only [h2] at h
      exact Except.noConfusion h
    · simp only [h2] at h
      simp only [lookupKey_append_some extra h2]
      exact h

/-- Appending fresh pairs preserves a successful `branchMoveTangentially` decode. -/
theorem branchMoveTangentially_append {obj : WireObj} (extra : WireObj) {a : Action}
    (h : branchMoveTangentially obj = .ok a) :
    branchMoveTangentially (obj ++ extra) = .ok a := by
  unfold branchMoveTangentially getTuple getField at h ⊢
  rcases h1 : lookupKey obj "agent_id" with _ | v1
  · simp only [h1] at h
    exact Except.noConfusion h
  · simp only [h1] at h
    simp only [lookupKey_append_some extra h1]
    rcases h2 : lookupKey obj "distance" with _ | v2
    · simp only [h2] at h
      exact Except.noConfusion h
    · simp only [h2] at h
      simp only [lookupKey_append_some extra h2]
      rcases h3 : lookupKey obj "direction" with _ | v3
      · simp only [h3] at h
        exact Except.noConfusion h
      · simp only [h3] at h
        simp only [lookupKey_append_some extra h3]
        rcases v3 with s3 | q3 | xs3
        · exact Except.noConfusion h
        · exact Except.noConfusion h
        · exact h

/-- Appending fresh pairs preserves a successful `branchOrientHorizontal` decode. -/
theorem branchOrientHorizontal_append {obj : WireObj} (extra : WireObj) {a : Action}
    (h : branchOrientHorizontal obj = .ok a) :
    branchOrientHorizontal (obj ++ extra) = .ok a := by
  unfold branchOrientHorizontal getField at h ⊢
  rcases h1 : lookupKey obj "agent_id" with _ | v1
  · simp only [h1] at h
    exact Except.noConfusion h
  · simp only [h1] at h
    simp only [lookupKey_append_some extra h1]
    rcases h2 : lookupKey obj "rotation_degrees" with _ | v2
    · simp only [h2] at h
      exact Except.noConfusion h
    · simp only [h2] at h
      simp only [lookupKey_append_some extra h2]
      rcases h3 : lookupKey obj "left_distance" with _ | v3
      · simp only [h3] at h
        exact Except.noConfusion h
      · simp only [h3] at h
        simp only [lookupKey_append_some extra h3]
        rcases h4 : lookupKey obj "forward_distance" with _ | v4
        · simp only [h4] at h
          exact Except.noConfusion h
        · simp only [h4] at h
          simp only [lookupKey_append_some extra h4]
          exact h

/-- Appending fresh pairs preserves a successful `branchOrientVertical` decode. -/
theorem branchOrientVertical_append {obj : WireObj} (extra : WireObj) {a : Action}
    (h : branchOrientVertical obj = .ok a) :
    branchOrientVertical (obj ++ extra) = .ok a := by
  unfold branchOrientVertical getField at h ⊢
  rcases h1 : lookupKey obj "agent_id" with _ | v1
  · simp only [h1] at h
    exact Except.noConfusion h
  · simp only [h1] at h
    simp only [lookupKey_append_some extra h1]
    rcases h2 : lookupKey obj "rotation_degrees" with _ | v2
    · simp only [h2] at h
      exact Except.noConfusion h
    · simp only [h2] at h
      simp only [lookupKey_append_some extra h2]
      rcases h3 : lookupKey obj "down_distance" with _ | v3
      · simp only [h3] at h
        exact Except.noConfusion h
      · simp only [h3] at h
        simp only [lookupKey_append_some extra h3]
        rcases h4 : lookupKey obj "forward_distance" with _ | v4
        · simp only [h4] at h
          exact Except.noConfusion h
        · simp only [h4] at h
          simp only [lookupKey_append_some extra h4]
          exact h

/-- Appending fresh pairs preserves a successful `branchSetAgentPitch` decode. -/
theorem branchSetAgentPitch_append {obj : WireObj} (extra : WireObj) {a : Action}
    (h : branchSetAgentPitch obj = .ok a) :
    branchSetAgentPitch (obj ++ extra) = .ok a := by
  unfold branchSetAgentPitch getField at h ⊢
  rcases h1 : lookupKey obj "agent_id" with _ | v1
  · simp only [h1] at h
    exact Except.noConfusion h
  · simp only [h1] at h
    simp only [lookupKey_append_some extra h1]
    rcases h2 : lookupKey obj "pitch_degrees" with _ | v2
    · simp only [h2] at h
      exact Except.noConfusion h
    · simp only [h2] at h
      simp only [lookupKey_append_some extra h2]
      exact h

/-- Appending fresh pairs preserves a successful `branchSetAgentPose` decode. -/
theorem branchSetAgentPose_append {obj : WireObj} (extra : WireObj) {a : Action}
    (h : branchSetAgentPose obj = .ok a) :
    branchSetAgentPose (obj ++ extra) = .ok a := by
  unfold branchSetAgentPose getTuple getField at h ⊢
  rcases h1 : lookupKey obj "agent_id" with _ | v1
  · simp only [h1] at h
    exact Except.noConfusion h
  · simp only [h1] at h
    simp only [lookupKey_append_some extra h1]
    rcases h2 : lookupKey obj "location" with _ | v2
    · simp only [h2] at h
      exact Except.noConfusion h
    · simp only [h2] at h
      simp only [lookupKey_append_some extra h2]
      rcases v2 with s2 | q2 | xs2
      · exact Except.noConfusion h
      · exact Except.noConfusion h
      ·
        rcases h3 : lookupKey obj "rotation_quat" with _ | v3
        · simp only [h3] at h
          exact Except.noConfusion h
        · simp only [h3] at h
          simp only [lookupKey_append_some extra h3]
          rcases v3 with s3 | q3 | xs3
          · exact Except.noConfusion h
          · exact Except.noConfusion h
          · exact h

/-- Appending fresh pairs preserves a successful `branchSetSensorPitch` decode. -/
theorem branchSetSensorPitch_append {obj : WireObj} (extra : WireObj) {a : Action}
    (h : branchSetSensorPitch obj = .ok a) :
    branchSetSensorPitch (obj ++ extra) = .ok a := by
  unfold branchSetSensorPitch getField at h ⊢
  rcases h1 : lookupKey obj "agent_id" with _ | v1
  · simp only [h1] at h
    exact Except.noConfusion h
  · simp only [h1] at h
    simp only [lookupKey_append_some extra h1]
    rcases h2 : lookupKey obj "pitch_degrees" with _ | v2
    · simp only [h2] at h
      exact Except.noConfusion h
    · simp only [h2] at h
      simp only [lookupKey_append_some extra h2]
      exact h

/-- Appending fresh pairs preserves a successful `branchSetSensorPose` decode. -/
theorem branchSetSensorPose_append {obj : WireObj} (extra : WireObj) {a : Action}
    (h : branchSetSensorPose obj = .ok a) :
    branchSetSensorPose (obj ++ extra) = .ok a := by
  unfold branchSetSensorPose getTuple getField at h ⊢
  rcases h1 : lookupKey obj "agent_id" with _ | v1
  · simp only [h1] at h
    exact Except.noConfusion h
  · simp only [h1] at h
    simp only [lookupKey_append_some extra h1]
    rcases h2 : lookupKey obj "location" with _ | v2
    · simp only [h2] at h
      exact Except.noConfusion h
    · simp only [h2] at h
      simp only [lookupKey_append_some extra h2]
      rcases v2 with s2 | q2 | xs2
      · exact Except.noConfusion h
      · exact Except.noConfusion h
      ·
        rcases h3 : lookupKey obj "rotation_quat" with _ | v3
        · simp only [h3] at h
          exact Except.noConfusion h
        · simp only [h3] at h
          simp only [lookupKey_append_some extra h3]
          rcases v3 with s3 | q3 | xs3
          · exact Except.noConfusion h
          · exact Except.noConfusion h
          · exact h

/-- Appending fresh pairs preserves a successful `branchSetSensorRotation` decode. -/
theorem branchSetSensorRotation_append {obj : WireObj} (extra : WireObj) {a : Action}
    (h : branchSetSensorRotation obj = .ok a) :
    branchSetSensorRotation (obj ++ extra) = .ok a := by
  unfold branchSetSensorRotation getTuple getField at h ⊢
  rcases h1 : lookupKey obj "agent_id" with _ | v1
  · simp only [h1] at h
    exact Except.noConfusion h
  · simp only [h1] at h
    simp only [lookupKey_append_some extra h1]
    rcases h2 : lookupKey obj "rotation_quat" with _ | v2
    · simp only [h2] at h
      exact Except.noConfusion h
    · simp only [h2] at h
      simp only [lookupKey_append_some extra h2]
      rcases v2 with s2 | q2 | xs2
      · exact Except.noConfusion h
      · exact Except.noConfusion h
      · exact h

/-- Appending fresh pairs preserves a successful `branchSetYaw` decode. -/
theorem branchSetYaw_append {obj : WireObj} (extra : WireObj) {a : Action}
    (h : branchSetYaw obj = .ok a) :
    branchSetYaw (obj ++ extra) = .ok a := by
  unfold branchSetYaw getField at h ⊢
  rcases h1 : lookupKey obj "agent_id" with _ | v1
  · simp only [h1] at h
    exact Except.noConfusion h
  · simp only [h1] at h
    simp only [lookupKey_append_some extra h1]
    rcases h2 : lookupKey obj "rotation_degrees" with _ | v2
    · simp only [h2] at h
      exact Except.noConfusion h
    · simp only [h2] at h
      simp only [lookupKey_append_some extra h2]
      exact h

/-- Appending fresh pairs preserves a successful `branchTurnLeft` decode. -/
theorem branchTurnLeft_append {obj : WireObj} (extra : WireObj) {a : Action}
    (h : branchTurnLeft obj = .ok a) :
    branchTurnLeft (obj ++ extra) = .ok a := by
  unfold branchTurnLeft getField at h ⊢
  rcases h1 : lookupKey obj "agent_id" with _ | v1
  · simp only [h1] at h
    exact Except.noConfusion h
  · simp only [h1] at h
    simp only [lookupKey_append_some extra h1]
    rcases h2 : lookupKey obj "rotation_degrees" with _ | v2
    · simp only [h2] at h
      exact Except.noConfusion h
    · simp only [h2] at h
      simp only [lookupKey_append_some extra h2]
      exact h

/-- Appending fresh pairs preserves a successful `branchTurnRight` decode. -/
theorem branchTurnRight_append {obj : WireObj} (extra : WireObj) {a : Action}
    (h : branchTurnRight obj = .ok a) :
    branchTurnRight (obj ++ extra) = .ok a := by
  unfold branchTurnRight getField at h ⊢
  rcases h1 : lookupKey obj "agent_id" with _ | v1
  · simp only [h1] at h
    exact Except.noConfusion h
  · simp only [h1] at h
    simp only [lookupKey_append_some extra h1]
    rcases h2 : lookupKey obj "rotation_degrees" with _ | v2
    · simp only [h2] at h
      exact Except.noConfusion h
    · simp only [h2] at h
      simp only [lookupKey_append_some extra h2]
      exact h


/-- Dispatch on a string discriminator matching no derived name reaches the
unknown-action `ValueError`. -/
theorem dispatch_unknown_str {s : String} (obj : WireObj)
    (hunk : s ∉ knownActionNames) :
    dispatchAction (.str s) obj = .error (.valueError
      ("Invalid action object: unknown action '" ++ s ++ "'.")) := by
  rw [knownActionNames_eq] at hunk
  simp only [List.mem_cons, List.not_mem_nil, or_false, not_or] at hunk
  obtain ⟨n1, n2, n3, n4, n5, n6, n7, n8, n9, n10, n11, n12, n13, n14⟩ := hunk
  unfold dispatchAction
  simp only [an_LookDown, an_LookUp, an_MoveForward, an_MoveTangentially,
    an_OrientHorizontal, an_OrientVertical, an_SetAgentPitch, an_SetAgentPose,
    an_SetSensorPitch, an_SetSensorPose, an_SetSensorRotation, an_SetYaw,
    an_TurnLeft, an_TurnRight]
  rw [if_neg (fun h => n1 (JValue.str.inj h)),
      if_neg (fun h => n2 (JValue.str.inj h)),
      if_neg (fun h => n3 (JValue.str.inj h)),
      if_neg (fun h => n4 (JValue.str.inj h)),
      if_neg (fun h => n5 (JValue.str.inj h)),
      if_neg (fun h => n6 (JValue.str.inj h)),
      if_neg (fun h => n7 (JValue.str.inj h)),
      if_neg (fun h => n8 (JValue.str.inj h)),
      if_neg (fun h => n9 (JValue.str.inj h)),
      if_neg (fun h => n10 (JValue.str.inj h)),
      if_neg (fun h => n11 (JValue.str.inj h)),
      if_neg (fun h => n12 (JValue.str.inj h)),
      if_neg (fun h => n13 (JValue.str.inj h)),
      if_neg (fun h => n14 (JValue.str.inj h))]
  simp only [pyStr]

/-- Dispatch on a numeric discriminator reaches the unknown-action
`ValueError` (a number equals none of the name strings). -/
theorem dispatch_unknown_num (q : ℚ) (obj : WireObj) :
    dispatchAction (.num q) obj = .error (.valueError
      ("Invalid action object: unknown action '" ++ pyStr (.num q) ++ "'.")) := by
  unfold dispatchAction
  rw [if_neg (fun h => JValue.noConfusion h),
      if_neg (fun h => JValue.noConfusion h),
      if_neg (fun h => JValue.noConfusion h),
      if_neg (fun h => JValue.noConfusion h),
      if_neg (fun h => JValue.noConfusion h),
      if_neg (fun h => JValue.noConfusion h),
      if_neg (fun h => JValue.noConfusion h),
      if_neg (fun h => JValue.noConfusion h),
      if_neg (fun h => JValue.noConfusion h),
      if_neg (fun h => JValue.noConfusion h),
      if_neg (fun h => JValue.noConfusion h),
      if_neg (fun h => JValue.noConfusion h),
      if_neg (fun h => JValue.noConfusion h),
      if_neg (fun h => JValue.noConfusion h)]

/-- Dispatch on an array discriminator reaches the unknown-action
`ValueError` (an array equals none of the name strings). -/
theorem dispatch_unknown_arr (xs : List JValue) (obj : WireObj) :
    dispatchAction (.arr xs) obj = .error (.valueError
      ("Invalid action object: unknown action '" ++ pyStr (.arr xs) ++ "'.")) := by
  unfold dispatchAction
  rw [if_neg (fun h => JValue.noConfusion h),
      if_neg (fun h => JValue.noConfusion h),
      if_neg (fun h => JValue.noConfusion h),
      if_neg (fun h => JValue.noConfusion h),
      if_neg (fun h => JValue.noConfusion h),
      if_neg (fun h => JValue.noConfusion h),
      if_neg (fun h => JValue.noConfusion h),
      if_neg (fun h => JValue.noConfusion h),
      if_neg (fun h => JValue.noConfusion h),
      if_neg (fun h => JValue.noConfusion h),
      if_neg (fun h => JValue.noConfusion h),
      if_neg (fun h => JValue.noConfusion h),
      if_neg (fun h => JValue.noConfusion h),
      if_neg (fun h => JValue.noConfusion h)]

/-! ### Claim theorems -/

/-- C1 counterexample: the claim as stated quantifies over "the 13 action
variants", but the codec defines 14 concrete variant classes, so its
cardinality premise is false (the round-trip property itself is not at
fault). -/
theorem c1_round_trip_counterexample :
    ¬(actionClassNames.length = 13 ∧
      ∀ a : Action, object_hook (encodeAction a) = Except.ok a) :=
  fun h => absurd h.1 (by decide)

/-- C1 (amended): for every instance of the 14 action variants,
`decode(encode(a))` returns an instance of the same variant whose
discriminator and every field equal those of the input. -/
theorem c1_round_trip :
    actionClassNames.length = 14 ∧
      ∀ a : Action, object_hook (encodeAction a) = Except.ok a :=
  ⟨rfl, fun a => by cases a <;> rfl⟩

/-- C2 counterexample: encoding `LookDown(agent_id="a", rotation_degrees=10.0)`
yields keys `action, agent_id, constraint_degrees, rotation_degrees`
(attribute-assignment order), not the declaration order
`action, agent_id, rotation_degrees, constraint_degrees` the claim requires. -/
theorem c2_encoder_key_order_counterexample :
    (encodeAction (mkLookDown (.str "a") (.num 10))).map Prod.fst =
      ["action", "agent_id", "constraint_degrees", "rotation_degrees"] ∧
    (encodeAction (mkLookDown (.str "a") (.num 10))).map Prod.fst ≠
      ["action", "agent_id", "rotation_degrees", "constraint_degrees"] := by
  decide

/-- C2 (amended): the encoder output's first key is `"action"` mapped to the
derived name, followed by `"agent_id"` and the variant fields; for
`LookDown`/`LookUp` the field order is the attribute-assignment order
(`constraint_degrees` before `rotation_degrees`), for every other variant the
declaration order of the section-3 table; no field is omitted or renamed and
the `"name"` key is excluded. -/
theorem c2_encoder_key_order (a : Action) :
    (encodeAction a).map Prod.fst =
      "action" :: "agent_id" :: specFieldOrder (className a) ∧
    (encodeAction a).head? = some ("action", JValue.str (actionName a)) ∧
    "name" ∉ (encodeAction a).map Prod.fst := by
  cases a <;> exact ⟨rfl, rfl, by simp [encodeAction]⟩

/-- C3 counterexample: the claim as stated speaks of "the 13 variant type
identifiers", but there are 14 variant identifiers, so its cardinality
premise is false (the derived tokens and injectivity are not at fault). -/
theorem c3_name_stability_counterexample :
    ¬(actionClassNames.length = 13 ∧
      actionClassNames.map action_name =
        ["look_down", "look_up", "move_forward", "move_tangentially",
         "orient_horizontal", "orient_vertical", "set_agent_pitch",
         "set_agent_pose", "set_sensor_pitch", "set_sensor_pose",
         "set_sensor_rotation", "set_yaw", "turn_left", "turn_right"] ∧
      (actionClassNames.map action_name).Nodup) :=
  fun h => absurd h.1 (by decide)

/-- C3 (amended): applied to the 14 variant identifiers, the name deriver
yields exactly the lowercase underscore-separated tokens of the section-3
table, and no two variants share a token. -/
theorem c3_name_stability :
    actionClassNames.length = 14 ∧
    actionClassNames.map action_name =
      ["look_down", "look_up", "move_forward", "move_tangentially",
         "orient_horizontal", "orient_vertical", "set_agent_pitch",
         "set_agent_pose", "set_sensor_pitch", "set_sensor_pose",
         "set_sensor_rotation", "set_yaw", "turn_left", "turn_right"] ∧
    (actionClassNames.map action_name).Nodup :=
  ⟨rfl, rfl, by decide⟩

/-- C4 counterexample: a wire object for `set_agent_pose` that lacks
`rotation_quat` but carries a non-sequence `location` value fails with the
`TypeError` from `tuple(...)`, not with a missing-field `KeyError`, because
the `location` argument is evaluated before `rotation_quat` is looked up. -/
theorem c4_missing_field_counterexample :
    lookupKey [("action", JValue.str "set_agent_pose"),
      ("agent_id", JValue.str "a"), ("location", JValue.num 5)] "rotation_quat" = none ∧
    "rotation_quat" ∈ requiredKeys "set_agent_pose" ∧
    object_hook [("action", JValue.str "set_agent_pose"),
      ("agent_id", JValue.str "a"), ("location", JValue.num 5)] =
      .error (.typeError (.num 5)) ∧
    object_hook [("action", JValue.str "set_agent_pose"),
      ("agent_id", JValue.str "a"), ("location", JValue.num 5)] ≠
      .error (.keyError "rotation_quat") :=
  ⟨rfl, by decide, rfl, fun h => DecodeError.noConfusion (Except.error.inj h)⟩

/-- C4 (amended): for every wire object whose `"action"` value names a known
variant, whose present sequence-typed fields hold sequences, and which lacks
at least one of that variant's required field keys, decoding fails with a
`KeyError` naming a missing required key, and no action value is returned. -/
theorem c4_missing_field (obj : WireObj) (name : String)
    (hact : lookupKey obj "action" = some (.str name))
    (hknown : name ∈ knownActionNames)
    (hseq : ∀ k, k ∈ seqFieldKeys name → ∀ v, lookupKey obj k = some v →
      ∃ xs, v = JValue.arr xs)
    (hmiss : ∃ k, k ∈ requiredKeys name ∧ lookupKey obj k = none) :
    ∃ k, k ∈ requiredKeys name ∧ lookupKey obj k = none ∧
      object_hook obj = .error (.keyError k) := by
  rw [knownActionNames_eq] at hknown
  simp only [List.mem_cons, List.not_mem_nil, or_false] at hknown
  rcases hknown with rfl | rfl | rfl | rfl | rfl | rfl | rfl | rfl | rfl | rfl | rfl | rfl | rfl | rfl
  · rcases h1 : lookupKey obj "agent_id" with _ | v1
    · exact ⟨"agent_id", by decide, h1, by
        rw [object_hook_eq_dispatch hact, dispatch_look_down]
        simp only [branchLookDown, getField, h1]⟩
    rcases h2 : lookupKey obj "rotation_degrees" with _ | v2
    · exact ⟨"rotation_degrees", by decide, h2, by
        rw [object_hook_eq_dispatch hact, dispatch_look_down]
        simp only [branchLookDown, getField, h1, h2]⟩
    rcases h3 : lookupKey obj "constraint_degrees" with _ | v3
    · exact ⟨"constraint_degrees", by decide, h3, by
        rw [object_hook_eq_dispatch hact, dispatch_look_down]
        simp only [branchLookDown, getField, h1, h2, h3]⟩
    rcases hmiss with ⟨k, hk, hknone⟩
    have hk2 : k ∈ (["agent_id", "rotation_degrees", "constraint_degrees"] : List String) := hk
    simp only [List.mem_cons, List.not_mem_nil, or_false] at hk2
    rcases hk2 with rfl | rfl | rfl <;> simp_all
  · rcases h1 : lookupKey obj "agent_id" with _ | v1
    · exact ⟨"agent_id", by decide, h1, by
        rw [object_hook_eq_dispatch hact, dispatch_look_up]
        simp only [branchLookUp, getField, h1]⟩
    rcases h2 : lookupKey obj "rotation_degrees" with _ | v2
    · exact ⟨"rotation_degrees", by decide, h2, by
        rw [object_hook_eq_dispatch hact, dispatch_look_up]
        simp only [branchLookUp, getField, h1, h2]⟩
    rcases h3 : lookupKey obj "constraint_degrees" with _ | v3
    · exact ⟨"constraint_degrees", by decide, h3, by
        rw [object_hook_eq_dispatch hact, dispatch_look_up]
        simp only [branchLookUp, getField, h1, h2, h3]⟩
    rcases hmiss with ⟨k, hk, hknone⟩
    have hk2 : k ∈ (["agent_id", "rotation_degrees", "constraint_degrees"] : List String) := hk
    simp only [List.mem_cons, List.not_mem_nil, or_false] at hk2
    rcases hk2 with rfl | rfl | rfl <;> simp_all
  · rcases h1 : lookupKey obj "agent_id" with _ | v1
    · exact ⟨"agent_id", by decide, h1, by
        rw [object_hook_eq_dispatch hact, dispatch_move_forward]
        simp only [branchMoveForward, getField, h1]⟩
    rcases h2 : lookupKey obj "distance" with _ | v2
    · exact ⟨"distance", by decide, h2, by
        rw [object_hook_eq_dispatch hact, dispatch_move_forward]
        simp only [branchMoveForward, getField, h1, h2]⟩
    rcases hmiss with ⟨k, hk, hknone⟩
    have hk2 : k ∈ (["agent_id", "distance"] : List String) := hk
    simp only [List.mem_cons, List.not_mem_nil, or_false] at hk2
    rcases hk2 with rfl | rfl <;> simp_all
  · rcases h1 : lookupKey obj "agent_id" with _ | v1
    · exact ⟨"agent_id", by decide, h1, by
        rw [object_hook_eq_dispatch hact, dispatch_move_tangentially]
        simp only [branchMoveTangentially, getTuple, getField, h1]⟩
    rcases h2 : lookupKey obj "distance" with _ | v2
    · exact ⟨"distance", by decide, h2, by
        rw [object_hook_eq_dispatch hact, dispatch_move_tangentially]
        simp only [branchMoveTangentially, getTuple, getField, h1, h2]⟩
    rcases h3 : lookupKey obj "direction" with _ | v3
    · exact ⟨"direction", by decide, h3, by
        rw [object_hook_eq_dispatch hact, dispatch_move_tangentially]
        simp only [branchMoveTangentially, getTuple, getField, h1, h2, h3]⟩
    obtain ⟨xs3, rfl⟩ := hseq "direction" (by decide) v3 h3
    rcases hmiss with ⟨k, hk, hknone⟩
    have hk2 : k ∈ (["agent_id", "distance", "direction"] : List String) := hk
    simp only [List.mem_cons, List.not_mem_nil, or_false] at hk2
    rcases hk2 with rfl | rfl | rfl <;> simp_all
  · rcases h1 : lookupKey obj "agent_id" with _ | v1
    · exact ⟨"agent_id", by decide, h1, by
        rw [object_hook_eq_dispatch hact, dispatch_orient_horizontal]
        simp only [branchOrientHorizontal, getField, h1]⟩
    rcases h2 : lookupKey obj "rotation_degrees" with _ | v2
    · exact ⟨"rotation_degrees", by decide, h2, by
        rw [object_hook_eq_dispatch hact, dispatch_orient_horizontal]
        simp only [branchOrientHorizontal, getField, h1, h2]⟩
    rcases h3 : lookupKey obj "left_distance" with _ | v3
    · exact ⟨"left_distance", by decide, h3, by
        rw [object_hook_eq_dispatch hact, dispatch_orient_horizontal]
        simp only [branchOrientHorizontal, getField, h1, h2, h3]⟩
    rcases h4 : lookupKey obj "forward_distance" with _ | v4
    · exact ⟨"forward_distance", by decide, h4, by
        rw [object_hook_eq_dispatch hact, dispatch_orient_horizontal]
        simp only [branchOrientHorizontal, getField, h1, h2, h3, h4]⟩
    rcases hmiss with ⟨k, hk, hknone⟩
    have hk2 : k ∈ (["agent_id", "rotation_degrees", "left_distance", "forward_distance"] : List String) := hk
    simp only [List.mem_cons, List.not_mem_nil, or_false] at hk2
    rcases hk2 with rfl | rfl | rfl | rfl <;> simp_all
  · rcases h1 : lookupKey obj "agent_id" with _ | v1
    · exact ⟨"agent_id", by decide, h1, by
        rw [object_hook_eq_dispatch hact, dispatch_orient_vertical]
        simp only [branchOrientVertical, getField, h1]⟩
    rcases h2 : lookupKey obj "rotation_degrees" with _ | v2
    · exact ⟨"rotation_degrees", by decide, h2, by
        rw [object_hook_eq_dispatch hact, dispatch_orient_vertical]
        simp only [branchOrientVertical, getField, h1, h2]⟩
    rcases h3 : lookupKey obj "down_distance" with _ | v3
    · exact ⟨"down_distance", by decide, h3, by
        rw [object_hook_eq_dispatch hact, dispatch_orient_vertical]
        simp only [branchOrientVertical, getField, h1, h2, h3]⟩
    rcases h4 : lookupKey obj "forward_distance" with _ | v4
    · exact ⟨"forward_distance", by decide, h4, by
        rw [object_hook_eq_dispatch hact, dispatch_orient_vertical]
        simp only [branchOrientVertical, getField, h1, h2, h3, h4]⟩
    rcases hmiss with ⟨k, hk, hknone⟩
    have hk2 : k ∈ (["agent_id", "rotation_degrees", "down_distance", "forward_distance"] : List String) := hk
    simp only [List.mem_cons, List.not_mem_nil, or_false] at hk2
    rcases hk2 with rfl | rfl | rfl | rfl <;> simp_all
  · rcases h1 : lookupKey obj "agent_id" with _ | v1
    · exact ⟨"agent_id", by decide, h1, by
        rw [object_hook_eq_dispatch hact, dispatch_set_agent_pitch]
        simp only [branchSetAgentPitch, getField, h1]⟩
    rcases h2 : lookupKey obj "pitch_degrees" with _ | v2
    · exact ⟨"pitch_degrees", by decide, h2, by
        rw [object_hook_eq_dispatch hact, dispatch_set_agent_pitch]
        simp only [branchSetAgentPitch, getField, h1, h2]⟩
    rcases hmiss with ⟨k, hk, hknone⟩
    have hk2 : k ∈ (["agent_id", "pitch_degrees"] : List String) := hk
    simp only [List.mem_cons, List.not_mem_nil, or_false] at hk2
    rcases hk2 with rfl | rfl <;> simp_all
  · rcases h1 : lookupKey obj "agent_id" with _ | v1
    · exact ⟨"agent_id", by decide, h1, by
        rw [object_hook_eq_dispatch hact, dispatch_set_agent_pose]
        simp only [branchSetAgentPose, getTuple, getField, h1]⟩
    rcases h2 : lookupKey obj "location" with _ | v2
    · exact ⟨"location", by decide, h2, by
        rw [object_hook_eq_dispatch hact, dispatch_set_agent_pose]
        simp only [branchSetAgentPose, getTuple, getField, h1, h2]⟩
    obtain ⟨xs2, rfl⟩ := hseq "location" (by decide) v2 h2
    rcases h3 : lookupKey obj "rotation_quat" with _ | v3
    · exact ⟨"rotation_quat", by decide, h3, by
        rw [object_hook_eq_dispatch hact, dispatch_set_agent_pose]
        simp only [branchSetAgentPose, getTuple, getField, h1, h2, h3]⟩
    obtain ⟨xs3, rfl⟩ := hseq "rotation_quat" (by decide) v3 h3
    rcases hmiss with ⟨k, hk, hknone⟩
    have hk2 : k ∈ (["agent_id", "location", "rotation_quat"] : List String) := hk
    simp only [List.mem_cons, List.not_mem_nil, or_false] at hk2
    rcases hk2 with rfl | rfl | rfl <;> simp_all
  · rcases h1 : lookupKey obj "agent_id" with _ | v1
    · exact ⟨"agent_id", by decide, h1, by
        rw [object_hook_eq_dispatch hact, dispatch_set_sensor_pitch]
        simp only [branchSetSensorPitch, getField, h1]⟩
    rcases h2 : lookupKey obj "pitch_degrees" with _ | v2
    · exact ⟨"pitch_degrees", by decide, h2, by
        rw [object_hook_eq_dispatch hact, dispatch_set_sensor_pitch]
        simp only [branchSetSensorPitch, getField, h1, h2]⟩
    rcases hmiss with ⟨k, hk, hknone⟩
    have hk2 : k ∈ (["agent_id", "pitch_degrees"] : List String) := hk
    simp only [List.mem_cons, List.not_mem_nil, or_false] at hk2
    rcases hk2 with rfl | rfl <;> simp_all
  · rcases h1 : lookupKey obj "agent_id" with _ | v1
    · exact ⟨"agent_id", by decide, h1, by
        rw [object_hook_eq_dispatch hact, dispatch_set_sensor_pose]
        simp only [branchSetSensorPose, getTuple, getField, h1]⟩
    rcases h2 : lookupKey obj "location" with _ | v2
    · exact ⟨"location", by decide, h2, by
        rw [object_hook_eq_dispatch hact, dispatch_set_sensor_pose]
        simp only [branchSetSensorPose, getTuple, getField, h1, h2]⟩
    obtain ⟨xs2, rfl⟩ := hseq "location" (by decide) v2 h2
    rcases h3 : lookupKey obj "rotation_quat" with _ | v3
    · exact ⟨"rotation_quat", by decide, h3, by
        rw [object_hook_eq_dispatch hact, dispatch_set_sensor_pose]
        simp only [branchSetSensorPose, getTuple, getField, h1, h2, h3]⟩
    obtain ⟨xs3, rfl⟩ := hseq "rotation_quat" (by decide) v3 h3
    rcases hmiss with ⟨k, hk, hknone⟩
    have hk2 : k ∈ (["agent_id", "location", "rotation_quat"] : List String) := hk
    simp only [List.mem_cons, List.not_mem_nil, or_false] at hk2
    rcases hk2 with rfl | rfl | rfl <;> simp_all
  · rcases h1 : lookupKey obj "agent_id" with _ | v1
    · exact ⟨"agent_id", by decide, h1, by
        rw [object_hook_eq_dispatch hact, dispatch_set_sensor_rotation]
        simp only [branchSetSensorRotation, getTuple, getField, h1]⟩
    rcases h2 : lookupKey obj "rotation_quat" with _ | v2
    · exact ⟨"rotation_quat", by decide, h2, by
        rw [object_hook_eq_dispatch hact, dispatch_set_sensor_rotation]
        simp only [branchSetSensorRotation, getTuple, getField, h1, h2]⟩
    obtain ⟨xs2, rfl⟩ := hseq "rotation_quat" (by decide) v2 h2
    rcases hmiss with ⟨k, hk, hknone⟩
    have hk2 : k ∈ (["agent_id", "rotation_quat"] : List String) := hk
    simp only [List.mem_cons, List.not_mem_nil, or_false] at hk2
    rcases hk2 with rfl | rfl <;> simp_all
  · rcases h1 : lookupKey obj "agent_id" with _ | v1
    · exact ⟨"agent_id", by decide, h1, by
        rw [object_hook_eq_dispatch hact, dispatch_set_yaw]
        simp only [branchSetYaw, getField, h1]⟩
    rcases h2 : lookupKey obj "rotation_degrees" with _ | v2
    · exact ⟨"rotation_degrees", by decide, h2, by
        rw [object_hook_eq_dispatch hact, dispatch_set_yaw]
        simp only [branchSetYaw, getField, h1, h2]⟩
    rcases hmiss with ⟨k, hk, hknone⟩
    have hk2 : k ∈ (["agent_id", "rotation_degrees"] : List String) := hk
    simp only [List.mem_cons, List.not_mem_nil, or_false] at hk2
    rcases hk2 with rfl | rfl <;> simp_all
  · rcases h1 : lookupKey obj "agent_id" with _ | v1
    · exact ⟨"agent_id", by decide, h1, by
        rw [object_hook_eq_dispatch hact, dispatch_turn_left]
        simp only [branchTurnLeft, getField, h1]⟩
    rcases h2 : lookupKey obj "rotation_degrees" with _ | v2
    · exact ⟨"rotation_degrees", by decide, h2, by
        rw [object_hook_eq_dispatch hact, dispatch_turn_left]
        simp only [branchTurnLeft, getField, h1, h2]⟩
    rcases hmiss with ⟨k, hk, hknone⟩
    have hk2 : k ∈ (["agent_id", "rotation_degrees"] : List String) := hk
    simp only [List.mem_cons, List.not_mem_nil, or_false] at hk2
    rcases hk2 with rfl | rfl <;> simp_all
  · rcases h1 : lookupKey obj "agent_id" with _ | v1
    · exact ⟨"agent_id", by decide, h1, by
        rw [object_hook_eq_dispatch hact, dispatch_turn_right]
        simp only [branchTurnRight, getField, h1]⟩
    rcases h2 : lookupKey obj "rotation_degrees" with _ | v2
    · exact ⟨"rotation_degrees", by decide, h2, by
        rw [object_hook_eq_dispatch hact, dispatch_turn_right]
        simp only [branchTurnRight, getField, h1, h2]⟩
    rcases hmiss with ⟨k, hk, hknone⟩
    have hk2 : k ∈ (["agent_id", "rotation_degrees"] : List String) := hk
    simp only [List.mem_cons, List.not_mem_nil, or_false] at hk2
    rcases hk2 with rfl | rfl <;> simp_all

/-- C4 witness: decoding `{"action": "move_forward", "agent_id": "a"}`
fails with the `KeyError` for the missing `distance`. -/
theorem c4_missing_field_witness :
    ∃ k, k ∈ requiredKeys "move_forward" ∧
      lookupKey [("action", JValue.str "move_forward"),
        ("agent_id", JValue.str "a")] k = none ∧
      object_hook [("action", JValue.str "move_forward"),
        ("agent_id", JValue.str "a")] = .error (.keyError k) :=
  c4_missing_field _ "move_forward" rfl (by decide)
    (fun k hk => absurd hk (List.not_mem_nil k))
    ⟨"distance", by decide, rfl⟩

/-- C5: decoding any wire object lacking the `"action"` key fails with the
malformed-input `ValueError`, and no action value is returned. -/
theorem c5_missing_action (obj : WireObj)
    (h : lookupKey obj "action" = none) :
    object_hook obj =
      .error (.valueError "Invalid action object: missing 'action' key.") :=
  object_hook_action_none h

/-- C5 witness: an object with only `agent_id` is rejected as malformed. -/
theorem c5_missing_action_witness :
    object_hook [("agent_id", JValue.str "a")] =
      .error (.valueError "Invalid action object: missing 'action' key.") :=
  c5_missing_action _ rfl

/-- C6 counterexample: the claim as stated speaks of "the 13 derived names",
but the dispatch chain recognizes 14 derived names, so its cardinality
premise is false (the unknown-action rejection itself is not at fault). -/
theorem c6_unknown_action_counterexample :
    ¬(knownActionNames.length = 13 ∧
      ∀ (obj : WireObj) (s : String),
        lookupKey obj "action" = some (.str s) → s ∉ knownActionNames →
        object_hook obj = .error (.valueError
          ("Invalid action object: unknown action '" ++ s ++ "'."))) :=
  fun h => absurd h.1 (by decide)

/-- C6 (amended): for every wire object whose `"action"` value is a string
matching none of the 14 derived names, decoding fails with the
unknown-action `ValueError`, and no action value is returned. -/
theorem c6_unknown_action :
    knownActionNames.length = 14 ∧
    ∀ (obj : WireObj) (s : String),
      lookupKey obj "action" = some (.str s) → s ∉ knownActionNames →
      object_hook obj = .error (.valueError
        ("Invalid action object: unknown action '" ++ s ++ "'.")) := by
  refine ⟨rfl, fun obj s hact hunk => ?_⟩
  rw [object_hook_eq_dispatch hact, dispatch_unknown_str obj hunk]

/-- C6 witness: `"not_a_real_action"` is rejected with the unknown-action
error. -/
theorem c6_unknown_action_witness :
    object_hook [("action", JValue.str "not_a_real_action")] =
      .error (.valueError
        "Invalid action object: unknown action 'not_a_real_action'.") :=
  c6_unknown_action.2 _ "not_a_real_action" rfl (by decide)

/-- C7: constructing `LookDown` or `LookUp` without an explicit
`constraint_degrees` applies the default `90.0`, and the default survives an
encode/decode round-trip. -/
theorem c7_constraint_default (agent_id rotation_degrees : JValue) :
    mkLookDown agent_id rotation_degrees =
      Action.lookDown agent_id rotation_degrees (.num 90) ∧
    mkLookUp agent_id rotation_degrees =
      Action.lookUp agent_id rotation_degrees (.num 90) ∧
    object_hook (encodeAction (mkLookDown agent_id rotation_degrees)) =
      .ok (Action.lookDown agent_id rotation_degrees (.num 90)) ∧
    object_hook (encodeAction (mkLookUp agent_id rotation_degrees)) =
      .ok (Action.lookUp agent_id rotation_degrees (.num 90)) :=
  ⟨rfl, rfl, rfl, rfl⟩

/-- C8: the decoder performs no arity validation on sequence fields: a
`set_agent_pose` object whose `location` has length 2 decodes successfully
to an instance carrying the length-2 tuple. -/
theorem c8_no_arity_validation :
    object_hook [("action", JValue.str "set_agent_pose"),
        ("agent_id", JValue.str "a"),
        ("location", JValue.arr [JValue.num 0, JValue.num 1]),
        ("rotation_quat", JValue.arr
          [JValue.num 1, JValue.num 0, JValue.num 0, JValue.num 0])] =
      .ok (Action.setAgentPose (.str "a") [JValue.num 0, JValue.num 1]
        [JValue.num 1, JValue.num 0, JValue.num 0, JValue.num 0]) ∧
    ([JValue.num 0, JValue.num 1] : List JValue).length = 2 :=
  ⟨rfl, rfl⟩

/-- C9: a wire object that decodes successfully still decodes to the same
variant instance after any additional (fresh) keys are added: the decoder
reads only the keys it needs, and extra keys are never an error. -/
theorem c9_extra_keys_ignored (obj extra : WireObj) (a : Action)
    (hok : object_hook obj = .ok a)
    (hfresh : ∀ p ∈ extra, lookupKey obj p.1 = none) :
    object_hook (obj ++ extra) = .ok a := by
  rcases ha : lookupKey obj "action" with _ | av
  · rw [object_hook_action_none ha] at hok
    exact Except.noConfusion hok
  · rw [object_hook_eq_dispatch ha] at hok
    rw [object_hook_eq_dispatch (lookupKey_append_some extra ha)]
    rcases av with s | q | xs
    · by_cases hs : s ∈ knownActionNames
      · rw [knownActionNames_eq] at hs
        simp only [List.mem_cons, List.not_mem_nil, or_false] at hs
        rcases hs with rfl | rfl | rfl | rfl | rfl | rfl | rfl | rfl | rfl | rfl | rfl | rfl | rfl | rfl
        · rw [dispatch_look_down] at hok ⊢
          exact branchLookDown_append extra hok
        · rw [dispatch_look_up] at hok ⊢
          exact branchLookUp_append extra hok
        · rw [dispatch_move_forward] at hok ⊢
          exact branchMoveForward_append extra hok
        · rw [dispatch_move_tangentially] at hok ⊢
          exact branchMoveTangentially_append extra hok
        · rw [dispatch_orient_horizontal] at hok ⊢
          exact branchOrientHorizontal_append extra hok
        · rw [dispatch_orient_vertical] at hok ⊢
          exact branchOrientVertical_append extra hok
        · rw [dispatch_set_agent_pitch] at hok ⊢
          exact branchSetAgentPitch_append extra hok
        · rw [dispatch_set_agent_pose] at hok ⊢
          exact branchSetAgentPose_append extra hok
        · rw [dispatch_set_sensor_pitch] at hok ⊢
          exact branchSetSensorPitch_append extra hok
        · rw [dispatch_set_sensor_pose] at hok ⊢
          exact branchSetSensorPose_append extra hok
        · rw [dispatch_set_sensor_rotation] at hok ⊢
          exact branchSetSensorRotation_append extra hok
        · rw [dispatch_set_yaw] at hok ⊢
          exact branchSetYaw_append extra hok
        · rw [dispatch_turn_left] at hok ⊢
          exact branchTurnLeft_append extra hok
        · rw [dispatch_turn_right] at hok ⊢
          exact branchTurnRight_append extra hok
      · rw [dispatch_unknown_str obj hs] at hok
        exact Except.noConfusion hok
    · rw [dispatch_unknown_num q obj] at hok
      exact Except.noConfusion hok
    · rw [dispatch_unknown_arr xs obj] at hok
      exact Except.noConfusion hok

/-- C9 witness: adding an unexpected key to a valid `move_forward` object
leaves the decoded instance unchanged. -/
theorem c9_extra_keys_ignored_witness :
    object_hook ([("action", JValue.str "move_forward"),
        ("agent_id", JValue.str "a"), ("distance", JValue.num 1)] ++
      [("extra_key", JValue.num 7)]) =
      .ok (Action.moveForward (.str "a") (.num 1)) :=
  c9_extra_keys_ignored _ _ _ rfl (by decide)

/-- C10: the decoder does not apply the constructor default for
`constraint_degrees`: a `look_down`/`look_up` wire object with `agent_id`
and `rotation_degrees` but no `constraint_degrees` key fails with the
`KeyError` for `constraint_degrees`, even though direct construction without
it succeeds with the default `90.0`. -/
theorem c10_no_default_on_decode (obj : WireObj)
    (v w agent_id rotation_degrees : JValue)
    (hact : lookupKey obj "action" = some (.str "look_down") ∨
      lookupKey obj "action" = some (.str "look_up"))
    (hagent : lookupKey obj "agent_id" = some v)
    (hrot : lookupKey obj "rotation_degrees" = some w)
    (hcon : lookupKey obj "constraint_degrees" = none) :
    object_hook obj = .error (.keyError "constraint_degrees") ∧
    mkLookDown agent_id rotation_degrees =
      Action.lookDown agent_id rotation_degrees (.num 90) ∧
    mkLookUp agent_id rotation_degrees =
      Action.lookUp agent_id rotation_degrees (.num 90) := by
  refine ⟨?_, rfl, rfl⟩
  rcases hact with h | h
  · rw [object_hook_eq_dispatch h, dispatch_look_down]
    simp only [branchLookDown, getField, hagent, hrot, hcon]
  · rw [object_hook_eq_dispatch h, dispatch_look_up]
    simp only [branchLookUp, getField, hagent, hrot, hcon]

/-- C10 witness: a `look_down` object lacking `constraint_degrees` is
rejected with its `KeyError`, while direct construction applies the
default. -/
theorem c10_no_default_on_decode_witness :
    object_hook [("action", JValue.str "look_down"),
        ("agent_id", JValue.str "a"), ("rotation_degrees", JValue.num 10)] =
      .error (.keyError "constraint_degrees") ∧
    mkLookDown (JValue.str "a") (JValue.num 10) =
      Action.lookDown (JValue.str "a") (JValue.num 10) (JValue.num 90) ∧
    mkLookUp (JValue.str "a") (JValue.num 10) =
      Action.lookUp (JValue.str "a") (JValue.num 10) (JValue.num 90) :=
  c10_no_default_on_decode _ _ _ _ _ (Or.inl rfl) rfl rfl rfl

end Monty
